import Mathlib

/-!
Verification of the SAAI demand-forecasting subsystem (ml/ sources).

Shallow embedding conventions:
* Sale quantities are rationals (the Python code works with ints/floats; the
  claims are about the exact formula, so we use exact arithmetic).
* Calendar dates/timestamps are integers counting days from an epoch that
  falls on a Monday, so that the Python `weekday()` (Monday = 0) becomes
  `d % 7`.  Sale records in this system carry day-granularity dates
  (registrar_venta stores `obtener_fecha_hora_peru()[:10]`).
* `datetime.now()` is modelled by an explicit parameter `hoy` (the current
  day index): functions that read the clock take it as an argument.
* Python `round` (banker's rounding, ties to even) is `roundHalfEven`;
  `round(x, 2)` is `round2`.
* Fallible code returns `Option`.
-/

namespace SAAI

/-- A sales-history record as consumed by `calcular_prediccion_simple`
(dict with keys `cantidad_vendida` and `fecha_venta`). -/
structure Venta where
  cantidad_vendida : ℚ
  fecha_venta : ℤ
deriving DecidableEq, Repr

/-- Python `round` with no digits argument: round half to even. -/
def roundHalfEven (x : ℚ) : ℤ :=
  if x - ⌊x⌋ < 1/2 then ⌊x⌋
  else if 1/2 < x - ⌊x⌋ then ⌊x⌋ + 1
  else if 2 ∣ ⌊x⌋ then ⌊x⌋ else ⌊x⌋ + 1

/-- Python `round(x, 2)`: round to two decimal places, ties to even. -/
def round2 (x : ℚ) : ℚ := (roundHalfEven (100 * x) : ℚ) / 100

/-- Python `weekday()` under the day-index embedding (Monday = 0). -/
def diaSemana (d : ℤ) : ℤ := d % 7

/-- One step of the stable descending insertion modelling Python
`sorted(..., key=fecha, reverse=True)`: `v` is placed before the first
element with a strictly smaller date, hence after all records with an
equal or later date (stability). -/
def insertarDesc (v : Venta) : List Venta → List Venta
  | [] => [v]
  | w :: ws => if w.fecha_venta < v.fecha_venta then v :: w :: ws else w :: insertarDesc v ws

/-- `sorted(ventas, key=fecha_venta, reverse=True)`: most recent first,
stable on ties. -/
def ordenarDesc (l : List Venta) : List Venta :=
  l.foldl (fun acc v => insertarDesc v acc) []

/-- `pesos = [0.9 ** i for i in range(len(ventas_ordenadas))]`. -/
def pesosHasta (n : ℕ) : List ℚ :=
  (List.range n).map fun i => (9/10 : ℚ) ^ i

/-- `suma_ponderada = sum(v['cantidad_vendida'] * w for v, w in zip(ventas_ordenadas, pesos))`. -/
def sumaPonderada (xs : List Venta) : ℚ :=
  ((xs.zip (pesosHasta xs.length)).map fun vw => vw.1.cantidad_vendida * vw.2).sum

/-- `suma_pesos = sum(pesos)`. -/
def sumaPesos (xs : List Venta) : ℚ := (pesosHasta xs.length).sum

/-- `demanda_base = suma_ponderada / suma_pesos if suma_pesos > 0 else 0`. -/
def demandaBase (xs : List Venta) : ℚ :=
  if 0 < sumaPesos xs then sumaPonderada xs / sumaPesos xs else 0

/-- `ventas_por_dia[dia_semana]`: the quantities sold on weekday `d`, in
history order (the code appends while iterating `ventas_ordenadas`). -/
def ventasPorDia (xs : List Venta) (d : ℤ) : List ℚ :=
  (xs.filter fun v => diaSemana v.fecha_venta = d).map (·.cantidad_vendida)

/-- `factor_dia[dia]`: `promedio_dia / demanda_base if demanda_base > 0 else 1.0`
when the weekday has observations, else `1.0`. -/
def factorDia (xs : List Venta) (d : ℤ) : ℚ :=
  if ventasPorDia xs d ≠ [] then
    (if 0 < demandaBase xs then
      (((ventasPorDia xs d).sum / (ventasPorDia xs d).length) / demandaBase xs)
    else 1)
  else 1

/-- `demanda_manana = demanda_base * factor_dia[dia_manana]` where
`dia_manana = (now + 1 day).weekday()`. -/
def demandaMananaQ (xs : List Venta) (hoy : ℤ) : ℚ :=
  demandaBase xs * factorDia xs (diaSemana (hoy + 1))

/-- `for i in range(1, 8): demanda_semana += demanda_base * factor_dia[(now + i days).weekday()]`. -/
def demandaSemanaQ (xs : List Venta) (hoy : ℤ) : ℚ :=
  ((List.range' 1 7).map fun i : ℕ =>
    demandaBase xs * factorDia xs (diaSemana (hoy + (i : ℤ)))).sum

/-- `confianza = min(len(ventas_ordenadas) / 30, 1.0)`, rounded to two
decimals in the returned dict. -/
def confianzaOf (n : ℕ) : ℚ := round2 (min ((n : ℚ) / 30) 1)

/-- Return value of `calcular_prediccion_simple`. -/
structure PrediccionSimple where
  demanda_manana : ℤ
  demanda_proxima_semana : ℤ
  confianza : ℚ
  metodo : String
deriving DecidableEq, Repr

/-- `calcular_prediccion_simple(ventas_historicas)` from ml/utils_ml.py.
The `ValueError` on empty input is modelled by `none`; the key-presence
check is enforced by the `Venta` record type.  `hoy` stands for the day
`datetime.now()` returns. -/
def calcular_prediccion_simple (ventas : List Venta) (hoy : ℤ) : Option PrediccionSimple :=
  if ventas = [] then none
  else
    some
      { demanda_manana := max 0 (roundHalfEven (demandaMananaQ (ordenarDesc ventas) hoy))
        demanda_proxima_semana := max 0 (roundHalfEven (demandaSemanaQ (ordenarDesc ventas) hoy))
        confianza := confianzaOf (ordenarDesc ventas).length
        metodo := "WEIGHTED_AVERAGE" }

/-- `calcular_alerta(stock_actual, demanda_manana, demanda_semana)` from
ml/utils_ml.py. -/
def calcular_alerta (stock_actual demanda_manana demanda_semana : ℤ) : String :=
  if stock_actual < demanda_manana then "STOCK_CRITICO_MANANA"
  else if stock_actual < demanda_semana then "STOCK_BAJO_SEMANA"
  else "STOCK_SUFICIENTE"

/-- A persisted prediction, as assembled by `calcular_prediccion_producto`
in ml/generar_predicciones_por_tienda.py (the opaque `fecha_prediccion`
timestamp string is not modelled; no claim refers to it). -/
structure Prediccion where
  demanda_manana : ℤ
  demanda_proxima_semana : ℤ
  metodo : String
  confianza : ℚ
  stock_snapshot : ℤ
deriving DecidableEq, Repr

/-- `calcular_prediccion_producto(tenant_id, codigo_producto)` from
ml/generar_predicciones_por_tienda.py.  External effects are parameters:
`ventas` is what `obtener_ventas_historicas` returned, `modelo` is the
result of `cargar_modelo_s3` (`some forecast` = the 7-step forecast the
loaded Holt-Winters model would produce, `none` = no model in S3),
`stock` is the product's current stock. -/
def calcular_prediccion_producto (ventas : List Venta) (modelo : Option (List ℚ))
    (stock : ℤ) (hoy : ℤ) : Option Prediccion :=
  if ventas.length < 5 then none
  else if 30 ≤ ventas.length then
    match modelo with
    | none =>
      match calcular_prediccion_simple ventas hoy with
      | none => none
      | some r => some ⟨r.demanda_manana, r.demanda_proxima_semana, r.metodo, r.confianza, stock⟩
    | some forecast =>
      some ⟨max 0 (roundHalfEven (forecast.headD 0)), max 0 (roundHalfEven forecast.sum),
        "HOLT_WINTERS", 92/100, stock⟩
  else
    match calcular_prediccion_simple ventas hoy with
    | none => none
    | some r => some ⟨r.demanda_manana, r.demanda_proxima_semana, r.metodo, r.confianza, stock⟩

/-! ### Time-series builder (preparar_dataset_holt_winters, ml/utils_ml.py) -/

/-- A sales record as consumed by `preparar_dataset_holt_winters`
(dict with keys `fecha` and `cantidad_vendida`); `fecha` is a calendar
day (registrar_venta stores date-only strings). -/
structure RegistroVenta where
  fecha : ℤ
  cantidad_vendida : ℚ
deriving DecidableEq, Repr

/-- `preparar_dataset_holt_winters(ventas)`: group by date summing same-day
quantities, then reindex over the full daily range from the earliest to the
latest date, filling missing days with 0.  Empty input returns `None`. -/
def preparar_dataset_holt_winters (ventas : List RegistroVenta) : Option (List (ℤ × ℚ)) :=
  match ventas with
  | [] => none
  | v :: vs =>
    let d1 := vs.foldl (fun a r => min a r.fecha) v.fecha
    let d2 := vs.foldl (fun a r => max a r.fecha) v.fecha
    some ((List.range (d2 - d1 + 1).toNat).map fun i : ℕ =>
      ((d1 + (i : ℤ) : ℤ),
        (((v :: vs).filter fun r => r.fecha = d1 + (i : ℤ)).map (·.cantidad_vendida)).sum))

/-! ### Forecast cache (ml/prediccion_demanda.py and the batch writer) -/

/-- Payload stored in `t_predicciones` by the on-demand path. -/
structure CachePayload where
  codigo_producto : String
  demanda_manana : ℤ
  demanda_proxima_semana : ℤ
  estado : String
deriving DecidableEq, Repr

/-- The fields `verificar_cache` projects out of a cache hit. -/
structure CacheRespuesta where
  codigo_producto : String
  demanda_manana : ℤ
  demanda_proxima_semana : ℤ
deriving DecidableEq, Repr

/-- The `t_predicciones` table: a last-write-wins key-value store keyed by
(tenant_id, entity_id). -/
def Tabla := String × String → Option CachePayload

/-- `put_item_standard(t_predicciones, tenant_id, key, data)`. -/
def put_item (tabla : Tabla) (tenant_id entity_id : String) (v : CachePayload) : Tabla :=
  fun k => if k = (tenant_id, entity_id) then some v else tabla k

/-- `get_item_standard(t_predicciones, tenant_id, key)`. -/
def get_item (tabla : Tabla) (tenant_id entity_id : String) : Option CachePayload :=
  tabla (tenant_id, entity_id)

/-- The cache key built by `verificar_cache`:
`cache_key = f"{codigo_producto}#{fecha_hoy}"`. -/
def clave_verificar_cache (codigo_producto fecha_hoy : String) : String :=
  codigo_producto ++ "#" ++ fecha_hoy

/-- The cache key built by `guardar_cache` (on-demand write path):
`cache_key = f"{codigo_producto}#{fecha_hoy}"`. -/
def clave_guardar_cache (codigo_producto fecha_hoy : String) : String :=
  codigo_producto ++ "#" ++ fecha_hoy

/-- The entity id under which the batch writer `guardar_prediccion`
(ml/generar_predicciones_por_tienda.py) stores a prediction:
`put_item_standard('t_predicciones', tenant_id, codigo_producto, data)` —
the product code alone, no date component. -/
def clave_guardar_prediccion (codigo_producto : String) : String :=
  codigo_producto

/-- `verificar_cache(tenant_id, codigo_producto)` from ml/prediccion_demanda.py:
read at the dated key; answer only entries whose `estado` is `'ACTIVO'`. -/
def verificar_cache (tabla : Tabla) (tenant_id codigo_producto fecha_hoy : String) :
    Option CacheRespuesta :=
  match get_item tabla tenant_id (clave_verificar_cache codigo_producto fecha_hoy) with
  | some c =>
    if c.estado = "ACTIVO" then
      some ⟨c.codigo_producto, c.demanda_manana, c.demanda_proxima_semana⟩
    else none
  | none => none

/-- `guardar_cache(tenant_id, codigo_producto, prediccion_data)` from
ml/prediccion_demanda.py. -/
def guardar_cache (tabla : Tabla) (tenant_id codigo_producto fecha_hoy : String)
    (v : CachePayload) : Tabla :=
  put_item tabla tenant_id (clave_guardar_cache codigo_producto fecha_hoy) v

/-- `guardar_prediccion(tenant_id, codigo_producto, prediccion)` from
ml/generar_predicciones_por_tienda.py: writes under the product code alone. -/
def guardar_prediccion (tabla : Tabla) (tenant_id codigo_producto : String)
    (v : CachePayload) : Tabla :=
  put_item tabla tenant_id (clave_guardar_prediccion codigo_producto) v

/-! ### Per-tenant batch worker (handler, ml/generar_predicciones_por_tienda.py) -/

/-- The per-store statistics dict initialised at the top of the handler. -/
structure Estadisticas where
  total_productos : ℕ
  productos_con_ia : ℕ
  productos_con_formula : ℕ
  productos_omitidos : ℕ
  alertas_generadas : ℕ
deriving DecidableEq, Repr

/-- Result of processing one store: its statistics, the predictions saved
by `guardar_prediccion` in order, and the products whose processing was
attempted (entered the per-product `try`). -/
structure ResultadoTienda where
  estadisticas : Estadisticas
  guardadas : List (String × Prediccion)
  intentados : List String
deriving DecidableEq, Repr

/-- One iteration of the per-product loop in the handler.  The oracle `g`
gives the outcome of `calcular_prediccion_producto` for the product:
`.error` = an exception was raised (caught by the `except` branch, which
logs and counts the product as omitted), `.ok none` = insufficient data,
`.ok (some pred)` = a prediction, which is saved and counted, with an SNS
alert counted when `calcular_alerta` on the stock snapshot is critical. -/
def procesarProducto (g : String → Except String (Option Prediccion))
    (st : ResultadoTienda) (p : String) : ResultadoTienda :=
  match g p with
  | .error _ =>
    { st with
      estadisticas := { st.estadisticas with
        productos_omitidos := st.estadisticas.productos_omitidos + 1 }
      intentados := st.intentados ++ [p] }
  | .ok none =>
    { st with
      estadisticas := { st.estadisticas with
        productos_omitidos := st.estadisticas.productos_omitidos + 1 }
      intentados := st.intentados ++ [p] }
  | .ok (some pred) =>
    let e1 := { st.estadisticas with
      total_productos := st.estadisticas.total_productos + 1 }
    let e2 :=
      if pred.metodo = "HOLT_WINTERS" then
        { e1 with productos_con_ia := e1.productos_con_ia + 1 }
      else
        { e1 with productos_con_formula := e1.productos_con_formula + 1 }
    let e3 :=
      if calcular_alerta pred.stock_snapshot pred.demanda_manana pred.demanda_proxima_semana
          = "STOCK_CRITICO_MANANA" then
        { e2 with alertas_generadas := e2.alertas_generadas + 1 }
      else e2
    { estadisticas := e3
      guardadas := st.guardadas ++ [(p, pred)]
      intentados := st.intentados ++ [p] }

/-- The per-product loop of the handler for one store. -/
def procesarTienda (g : String → Except String (Option Prediccion))
    (productos : List String) : ResultadoTienda :=
  productos.foldl (procesarProducto g) ⟨⟨0, 0, 0, 0, 0⟩, [], []⟩

/-- The handler's loop over the SQS records: one store per record, each
processed with its own oracle. -/
def procesarLote (g : String → String → Except String (Option Prediccion))
    (lote : List (String × List String)) : List (String × ResultadoTienda) :=
  lote.map fun tp => (tp.1, procesarTienda (g tp.1) tp.2)

/-- Classification of an oracle outcome as omitted (exception caught, or
no prediction produced). -/
def esOmitido (o : Except String (Option Prediccion)) : Bool :=
  match o with
  | .error _ => true
  | .ok none => true
  | .ok (some _) => false

/-- The pair `guardar_prediccion` persists for a product, if any. -/
def exitoDe (g : String → Except String (Option Prediccion)) (p : String) :
    Option (String × Prediccion) :=
  match g p with
  | .ok (some pred) => some (p, pred)
  | _ => none


/-- A per-product oracle that fails (raises) exactly on product "B". -/
def oraculoFalla : String → String → Except String (Option Prediccion) :=
  fun _ q =>
    if q = "B" then Except.error "boom"
    else Except.ok (some ⟨1, 2, "WEIGHTED_AVERAGE", 1/2, 0⟩)

/-- A per-product oracle that always succeeds. -/
def oraculoBien : String → String → Except String (Option Prediccion) :=
  fun _ _ => Except.ok (some ⟨1, 2, "WEIGHTED_AVERAGE", 1/2, 0⟩)

/-! ### Spec-side transcription of the weighted-average formula (spec §4.3)

These definitions follow the specification text, to be compared with the
source-derived definitions above. -/

/-- Quantity of the i-th most recent record of an ordered history. -/
def qtyAt (xs : List Venta) (i : ℕ) : ℚ := (xs.getD i ⟨0, 0⟩).cantidad_vendida

/-- Spec: weight `0.9^i` for the i-th most recent record;
`demand_base = Σ(qty·weight) / Σ(weight)`. -/
def specDemandBase (xs : List Venta) : ℚ :=
  (∑ i in Finset.range xs.length, qtyAt xs i * (9/10 : ℚ) ^ i) /
  (∑ i in Finset.range xs.length, (9/10 : ℚ) ^ i)

/-- Spec: `factor[d] = average(qty on weekday d) / demand_base`, defaulting
to `1.0` for weekdays with no observations. -/
def specFactor (xs : List Venta) (d : ℤ) : ℚ :=
  if ventasPorDia xs d = [] then 1
  else ((ventasPorDia xs d).sum / ((ventasPorDia xs d).length : ℚ)) / specDemandBase xs

/-- Spec: `demand_tomorrow = demand_base × factor[weekday(tomorrow)]`. -/
def specDemandTomorrow (xs : List Venta) (hoy : ℤ) : ℚ :=
  specDemandBase xs * specFactor xs (diaSemana (hoy + 1))

/-- Spec: `demand_next_7_days = Σ_{i=1..7} demand_base × factor[weekday(today+i)]`. -/
def specDemandNextWeek (xs : List Venta) (hoy : ℤ) : ℚ :=
  ((List.range' 1 7).map fun i : ℕ =>
    specDemandBase xs * specFactor xs (diaSemana (hoy + (i : ℤ)))).sum

/-! ### Properties of the stable descending sort -/

lemma insertarDesc_perm (v : Venta) (l : List Venta) : List.Perm (insertarDesc v l) (v :: l) := by
  induction l with
  | nil => exact List.Perm.refl _
  | cons w ws ih =>
    unfold insertarDesc
    split
    · exact List.Perm.refl _
    · exact (ih.cons w).trans (List.Perm.swap v w ws)

lemma foldl_insertar_perm (l : List Venta) :
    ∀ acc : List Venta, List.Perm (l.foldl (fun a v => insertarDesc v a) acc) (l ++ acc) := by
  induction l with
  | nil => intro acc; simp
  | cons v t ih =>
    intro acc
    simp only [List.foldl_cons, List.cons_append]
    refine ((ih _).trans ?_)
    exact (List.Perm.append_left t (insertarDesc_perm v acc)).trans List.perm_middle

lemma ordenarDesc_perm (l : List Venta) : List.Perm (ordenarDesc l) l := by
  simpa using foldl_insertar_perm l []

lemma ordenarDesc_length (l : List Venta) : (ordenarDesc l).length = l.length :=
  (ordenarDesc_perm l).length_eq

lemma ordenarDesc_ne_nil {l : List Venta} (h : l ≠ []) : ordenarDesc l ≠ [] := by
  intro hc
  exact h (List.length_eq_zero.mp (by rw [← ordenarDesc_length l, hc, List.length_nil]))

lemma ordenarDesc_mem {l : List Venta} {v : Venta} (h : v ∈ ordenarDesc l) : v ∈ l :=
  (ordenarDesc_perm l).mem_iff.mp h

/-! ### The code's sums agree with the spec's indexed sums -/

lemma list_range_map_sum (f : ℕ → ℚ) (n : ℕ) :
    ((List.range n).map f).sum = ∑ i in Finset.range n, f i := by
  induction n with
  | zero => simp
  | succ n ih => rw [List.range_succ, Finset.sum_range_succ, List.map_append]; simp [ih]

lemma sumaPesos_eq (xs : List Venta) :
    sumaPesos xs = ∑ i in Finset.range xs.length, (9/10 : ℚ) ^ i :=
  list_range_map_sum _ _

lemma sumaPesos_pos {xs : List Venta} (h : xs ≠ []) : 0 < sumaPesos xs := by
  rw [sumaPesos_eq]
  apply Finset.sum_pos
  · intro i _
    positivity
  · rw [Finset.nonempty_range_iff]
    exact Nat.pos_iff_ne_zero.mp (List.length_pos.mpr h)

lemma zip_weights_sum (xs : List Venta) :
    ∀ g : ℕ → ℚ,
      ((xs.zip ((List.range xs.length).map g)).map fun vw => vw.1.cantidad_vendida * vw.2).sum
        = ∑ i in Finset.range xs.length, qtyAt xs i * g i := by
  induction xs with
  | nil => intro g; simp
  | cons v t ih =>
    intro g
    have hr : List.range (t.length + 1) = 0 :: (List.range t.length).map Nat.succ :=
      List.range_succ_eq_map _
    rw [List.length_cons, hr, List.map_cons, List.map_map, List.zip_cons_cons, List.map_cons,
      List.sum_cons, Finset.sum_range_succ']
    have hcomp : (List.range t.length).map (g ∘ Nat.succ) = (List.range t.length).map fun i => g (i + 1) := by
      rfl
    rw [hcomp, ih fun i => g (i + 1)]
    have h0 : qtyAt (v :: t) 0 = v.cantidad_vendida := rfl
    have hsucc : ∀ i, qtyAt (v :: t) (i + 1) = qtyAt t i := fun i => rfl
    simp only [h0, hsucc]
    ring

lemma sumaPonderada_eq (xs : List Venta) :
    sumaPonderada xs = ∑ i in Finset.range xs.length, qtyAt xs i * (9/10 : ℚ) ^ i :=
  zip_weights_sum xs _

lemma demandaBase_eq_spec {xs : List Venta} (h : xs ≠ []) :
    demandaBase xs = specDemandBase xs := by
  unfold demandaBase specDemandBase
  rw [if_pos (sumaPesos_pos h), sumaPonderada_eq, sumaPesos_eq]

lemma qtyAt_nonneg {xs : List Venta} (hq : ∀ v ∈ xs, 0 ≤ v.cantidad_vendida)
    {i : ℕ} (hi : i < xs.length) : 0 ≤ qtyAt xs i := by
  unfold qtyAt
  rw [List.getD_eq_getElem _ _ hi]
  exact hq _ (List.getElem_mem hi)

lemma demandaBase_nonneg {xs : List Venta} (hq : ∀ v ∈ xs, 0 ≤ v.cantidad_vendida) :
    0 ≤ demandaBase xs := by
  unfold demandaBase
  split
  · apply div_nonneg _ (le_of_lt (by assumption))
    rw [sumaPonderada_eq]
    apply Finset.sum_nonneg
    intro i hi
    exact mul_nonneg (qtyAt_nonneg hq (Finset.mem_range.mp hi)) (by positivity)
  · exact le_refl 0

lemma factorDia_eq_spec {xs : List Venta} (h : xs ≠ []) (hb : 0 < demandaBase xs) (d : ℤ) :
    factorDia xs d = specFactor xs d := by
  unfold factorDia specFactor
  by_cases hv : ventasPorDia xs d = []
  · simp [hv]
  · simp only [hv, ne_eq, not_false_eq_true, if_true, if_false, if_pos hb]
    rw [demandaBase_eq_spec h]


/-! ### C2: totality and correctness of the alert classification -/

/-- C2: for every (stock, demand_tomorrow, demand_next_week) triple,
`calcular_alerta` returns exactly one of the three classifications, with
CRITICAL (`STOCK_CRITICO_MANANA`) iff `stock < demanda_manana`, WARNING
(`STOCK_BAJO_SEMANA`) iff not critical and `stock < demanda_semana`, and
NONE (`STOCK_SUFICIENTE`) otherwise. -/
theorem calcular_alerta_total_and_correct (stock dm ds : ℤ) :
    (calcular_alerta stock dm ds = "STOCK_CRITICO_MANANA" ∨
      calcular_alerta stock dm ds = "STOCK_BAJO_SEMANA" ∨
      calcular_alerta stock dm ds = "STOCK_SUFICIENTE") ∧
    (calcular_alerta stock dm ds = "STOCK_CRITICO_MANANA" ↔ stock < dm) ∧
    (calcular_alerta stock dm ds = "STOCK_BAJO_SEMANA" ↔ ¬stock < dm ∧ stock < ds) ∧
    (calcular_alerta stock dm ds = "STOCK_SUFICIENTE" ↔ ¬stock < dm ∧ ¬stock < ds) := by
  unfold calcular_alerta
  split_ifs with h1 h2 <;> simp_all

/-! ### C1: the code computes the spec's weighted-average formula -/

/-- C1: on every non-empty sales history (quantities are sales, hence
nonnegative), `calcular_prediccion_simple` returns exactly the spec §4.3
formula: demand_base from `0.9^i` decay over the most-recent-first
ordering, per-weekday factors defaulting to 1.0 without observations,
tomorrow and 7-day demands rounded to the nearest integer and floored at
0, method label WEIGHTED_AVERAGE. -/
theorem calcular_prediccion_simple_matches_spec (ventas : List Venta) (hoy : ℤ)
    (hne : ventas ≠ []) (hq : ∀ v ∈ ventas, 0 ≤ v.cantidad_vendida) :
    ∃ r, calcular_prediccion_simple ventas hoy = some r ∧
      r.demanda_manana = max 0 (roundHalfEven (specDemandTomorrow (ordenarDesc ventas) hoy)) ∧
      r.demanda_proxima_semana
        = max 0 (roundHalfEven (specDemandNextWeek (ordenarDesc ventas) hoy)) ∧
      r.metodo = "WEIGHTED_AVERAGE" := by
  have hxe : ordenarDesc ventas ≠ [] := ordenarDesc_ne_nil hne
  have hq' : ∀ v ∈ ordenarDesc ventas, 0 ≤ v.cantidad_vendida :=
    fun v hv => hq v (ordenarDesc_mem hv)
  have hbase := demandaBase_eq_spec hxe
  have hmanana : demandaMananaQ (ordenarDesc ventas) hoy
      = specDemandTomorrow (ordenarDesc ventas) hoy := by
    rcases (demandaBase_nonneg hq').lt_or_eq with hb | hb
    · unfold demandaMananaQ specDemandTomorrow
      rw [hbase, factorDia_eq_spec hxe hb]
    · unfold demandaMananaQ specDemandTomorrow
      rw [← hbase, ← hb, zero_mul, zero_mul]
  have hsemana : demandaSemanaQ (ordenarDesc ventas) hoy
      = specDemandNextWeek (ordenarDesc ventas) hoy := by
    rcases (demandaBase_nonneg hq').lt_or_eq with hb | hb
    · unfold demandaSemanaQ specDemandNextWeek
      congr 1
      apply List.map_congr_left
      intro i _
      rw [hbase, factorDia_eq_spec hxe hb]
    · unfold demandaSemanaQ specDemandNextWeek
      rw [← hbase, ← hb]
      simp
  unfold calcular_prediccion_simple
  rw [if_neg hne]
  exact ⟨_, rfl, by rw [hmanana], by rw [hsemana], rfl⟩

/-- Witness for C1 at the one-record history [(qty 3, day 0)]. -/
theorem calcular_prediccion_simple_matches_spec_witness :
    (([⟨3, 0⟩] : List Venta) ≠ [] ∧ ∀ v ∈ ([⟨3, 0⟩] : List Venta), 0 ≤ v.cantidad_vendida) ∧
    (∃ r, calcular_prediccion_simple [⟨3, 0⟩] 0 = some r ∧
      r.demanda_manana = max 0 (roundHalfEven (specDemandTomorrow (ordenarDesc [⟨3, 0⟩]) 0)) ∧
      r.demanda_proxima_semana
        = max 0 (roundHalfEven (specDemandNextWeek (ordenarDesc [⟨3, 0⟩]) 0)) ∧
      r.metodo = "WEIGHTED_AVERAGE") :=
  ⟨⟨by simp, by intro v hv; rw [List.mem_singleton] at hv; rw [hv]; norm_num⟩,
    calcular_prediccion_simple_matches_spec [⟨3, 0⟩] 0 (by simp)
      (by intro v hv; rw [List.mem_singleton] at hv; rw [hv]; norm_num)⟩

/-! ### C10: the formula is defined and zero when demand_base is not positive -/

lemma roundHalfEven_nonpos {x : ℚ} (h : x ≤ 0) : roundHalfEven x ≤ 0 := by
  have hfl : ⌊x⌋ ≤ 0 := by
    have h0 : ⌊x⌋ ≤ ⌊(0 : ℚ)⌋ := Int.floor_le_floor h
    simpa using h0
  have hfx : (⌊x⌋ : ℚ) ≤ x := Int.floor_le x
  unfold roundHalfEven
  split_ifs with h1 h2 h3
  · exact hfl
  · have hc : (⌊x⌋ : ℚ) < 0 := by linarith
    have hc2 : ⌊x⌋ < 0 := by exact_mod_cast hc
    omega
  · exact hfl
  · have hge : 1/2 ≤ x - ⌊x⌋ := not_lt.mp h1
    have hc : (⌊x⌋ : ℚ) < 0 := by linarith
    have hc2 : ⌊x⌋ < 0 := by exact_mod_cast hc
    omega

/-- C10: on any non-empty history whose computed demand base is not
positive (e.g. all quantities 0), the guarded divisions make every weekday
factor default to 1.0 and `calcular_prediccion_simple` still returns a
result, with both demand outputs equal to 0. -/
theorem prediccion_simple_zero_base_safe (ventas : List Venta) (hoy : ℤ)
    (hne : ventas ≠ []) (hb : demandaBase (ordenarDesc ventas) ≤ 0) :
    (∀ d, factorDia (ordenarDesc ventas) d = 1) ∧
    ∃ r, calcular_prediccion_simple ventas hoy = some r ∧
      r.demanda_manana = 0 ∧ r.demanda_proxima_semana = 0 := by
  have hfac : ∀ d, factorDia (ordenarDesc ventas) d = 1 := by
    intro d
    unfold factorDia
    split_ifs with h1 h2
    · linarith
    · rfl
    · rfl
  refine ⟨hfac, ?_⟩
  have hm : demandaMananaQ (ordenarDesc ventas) hoy = demandaBase (ordenarDesc ventas) := by
    unfold demandaMananaQ
    rw [hfac]
    ring
  have hs : demandaSemanaQ (ordenarDesc ventas) hoy = 7 * demandaBase (ordenarDesc ventas) := by
    unfold demandaSemanaQ
    simp only [hfac, mul_one]
    rw [show List.range' 1 7 = [1, 2, 3, 4, 5, 6, 7] from rfl]
    simp only [List.map_cons, List.map_nil, List.sum_cons, List.sum_nil]
    ring
  unfold calcular_prediccion_simple
  rw [if_neg hne]
  refine ⟨_, rfl, ?_, ?_⟩
  · show max 0 (roundHalfEven (demandaMananaQ (ordenarDesc ventas) hoy)) = 0
    rw [hm]
    exact max_eq_left (roundHalfEven_nonpos hb)
  · show max 0 (roundHalfEven (demandaSemanaQ (ordenarDesc ventas) hoy)) = 0
    rw [hs]
    exact max_eq_left (roundHalfEven_nonpos (by linarith))

/-- Witness for C10 at the all-zero one-record history. -/
theorem prediccion_simple_zero_base_safe_witness :
    (([⟨0, 0⟩] : List Venta) ≠ [] ∧ demandaBase (ordenarDesc [⟨0, 0⟩]) ≤ 0) ∧
    ((∀ d, factorDia (ordenarDesc [⟨0, 0⟩]) d = 1) ∧
      ∃ r, calcular_prediccion_simple [⟨0, 0⟩] 17 = some r ∧
        r.demanda_manana = 0 ∧ r.demanda_proxima_semana = 0) :=
  ⟨⟨by simp,
    by norm_num [ordenarDesc, insertarDesc, demandaBase, sumaPonderada, sumaPesos, pesosHasta,
      List.range_succ]⟩,
    prediccion_simple_zero_base_safe [⟨0, 0⟩] 17 (by simp)
      (by norm_num [ordenarDesc, insertarDesc, demandaBase, sumaPonderada, sumaPesos, pesosHasta,
        List.range_succ])⟩

/-! ### C7: determinism and the clock input -/

/-- C7 counterexample: `calcular_prediccion_simple` reads the clock
(`datetime.now()`): on the fixed history [(qty 10, Monday), (qty 0,
Tuesday)], invoking on a Sunday (`hoy = 6`) and on a Monday (`hoy = 0`)
yields different `demanda_manana` values, so the output is not a function
of the sales history alone. -/
theorem prediccion_simple_clock_dependent_cx :
    (calcular_prediccion_simple [⟨10, 0⟩, ⟨0, 1⟩] 6).map (·.demanda_manana)
      ≠ (calcular_prediccion_simple [⟨10, 0⟩, ⟨0, 1⟩] 0).map (·.demanda_manana) := by
  have h6 : demandaMananaQ (ordenarDesc [⟨10, 0⟩, ⟨0, 1⟩]) 6 = 10 := by
    norm_num [ordenarDesc, insertarDesc, demandaMananaQ, demandaBase, sumaPonderada, sumaPesos,
      pesosHasta, factorDia, ventasPorDia, diaSemana, List.range_succ]
  have h0 : demandaMananaQ (ordenarDesc [⟨10, 0⟩, ⟨0, 1⟩]) 0 = 0 := by
    norm_num [ordenarDesc, insertarDesc, demandaMananaQ, demandaBase, sumaPonderada, sumaPesos,
      pesosHasta, factorDia, ventasPorDia, diaSemana, List.range_succ]
  have hA : (calcular_prediccion_simple [⟨10, 0⟩, ⟨0, 1⟩] 6).map (·.demanda_manana)
      = some (max 0 (roundHalfEven (demandaMananaQ (ordenarDesc [⟨10, 0⟩, ⟨0, 1⟩]) 6))) := by
    rw [calcular_prediccion_simple, if_neg (by simp)]
    rfl
  have hB : (calcular_prediccion_simple [⟨10, 0⟩, ⟨0, 1⟩] 0).map (·.demanda_manana)
      = some (max 0 (roundHalfEven (demandaMananaQ (ordenarDesc [⟨10, 0⟩, ⟨0, 1⟩]) 0))) := by
    rw [calcular_prediccion_simple, if_neg (by simp)]
    rfl
  rw [hA, hB, h6, h0]
  norm_num [roundHalfEven]

/-- The 7-day sum visits every weekday exactly once, so it does not depend
on the invocation date. -/
lemma demandaSemanaQ_const (xs : List Venta) (s t : ℤ) :
    demandaSemanaQ xs s = demandaSemanaQ xs t := by
  suffices h : ∀ u : ℤ, demandaSemanaQ xs u = demandaSemanaQ xs 0 by rw [h s, h t]
  intro u
  unfold demandaSemanaQ diaSemana
  rw [show List.range' 1 7 = [1, 2, 3, 4, 5, 6, 7] from rfl]
  simp only [List.map_cons, List.map_nil, List.sum_cons, List.sum_nil, Nat.cast_one,
    Nat.cast_ofNat]
  rw [show (u + 1) % 7 = (u % 7 + 1) % 7 by omega, show (u + 2) % 7 = (u % 7 + 2) % 7 by omega,
    show (u + 3) % 7 = (u % 7 + 3) % 7 by omega, show (u + 4) % 7 = (u % 7 + 4) % 7 by omega,
    show (u + 5) % 7 = (u % 7 + 5) % 7 by omega, show (u + 6) % 7 = (u % 7 + 6) % 7 by omega,
    show (u + 7) % 7 = (u % 7 + 7) % 7 by omega]
  have hr : u % 7 = 0 ∨ u % 7 = 1 ∨ u % 7 = 2 ∨ u % 7 = 3 ∨ u % 7 = 4 ∨ u % 7 = 5 ∨ u % 7 = 6 := by
    omega
  rcases hr with h | h | h | h | h | h | h <;> rw [h] <;> norm_num <;> ring

/-- C7 amended: the weighted-average path is deterministic once the
invocation date is fixed (it is a pure function of (history, date)); two
invocations on dates with the same weekday agree completely, and the
confidence and next-week outputs agree across all invocation dates. -/
theorem prediccion_simple_determinism (ventas : List Venta) (t₁ t₂ : ℤ)
    (hsem : t₁ % 7 = t₂ % 7) :
    calcular_prediccion_simple ventas t₁ = calcular_prediccion_simple ventas t₂ ∧
    ∀ s₁ s₂ : ℤ,
      (calcular_prediccion_simple ventas s₁).map (·.confianza)
          = (calcular_prediccion_simple ventas s₂).map (·.confianza) ∧
      (calcular_prediccion_simple ventas s₁).map (·.demanda_proxima_semana)
          = (calcular_prediccion_simple ventas s₂).map (·.demanda_proxima_semana) := by
  constructor
  · unfold calcular_prediccion_simple
    split_ifs with h
    · rfl
    · have hm : demandaMananaQ (ordenarDesc ventas) t₁ = demandaMananaQ (ordenarDesc ventas) t₂ := by
        unfold demandaMananaQ diaSemana
        rw [show (t₁ + 1) % 7 = (t₂ + 1) % 7 by omega]
      rw [hm, demandaSemanaQ_const (ordenarDesc ventas) t₁ t₂]
  · intro s₁ s₂
    unfold calcular_prediccion_simple
    split_ifs with h
    · exact ⟨rfl, rfl⟩
    · exact ⟨rfl, by rw [demandaSemanaQ_const (ordenarDesc ventas) s₁ s₂]; rfl⟩

/-- Witness for C7 amended at history [(qty 1, day 0)], dates 7 and 0. -/
theorem prediccion_simple_determinism_witness :
    ((7 : ℤ) % 7 = (0 : ℤ) % 7) ∧
    (calcular_prediccion_simple [⟨1, 0⟩] 7 = calcular_prediccion_simple [⟨1, 0⟩] 0 ∧
      ∀ s₁ s₂ : ℤ,
        (calcular_prediccion_simple [⟨1, 0⟩] s₁).map (·.confianza)
            = (calcular_prediccion_simple [⟨1, 0⟩] s₂).map (·.confianza) ∧
        (calcular_prediccion_simple [⟨1, 0⟩] s₁).map (·.demanda_proxima_semana)
            = (calcular_prediccion_simple [⟨1, 0⟩] s₂).map (·.demanda_proxima_semana)) :=
  ⟨by norm_num, prediccion_simple_determinism [⟨1, 0⟩] 7 0 (by norm_num)⟩

/-! ### Helper facts about calcular_prediccion_simple results -/

lemma simple_eq_some {ventas : List Venta} (hoy : ℤ) (h : ventas ≠ []) :
    calcular_prediccion_simple ventas hoy = some
      { demanda_manana := max 0 (roundHalfEven (demandaMananaQ (ordenarDesc ventas) hoy))
        demanda_proxima_semana := max 0 (roundHalfEven (demandaSemanaQ (ordenarDesc ventas) hoy))
        confianza := confianzaOf (ordenarDesc ventas).length
        metodo := "WEIGHTED_AVERAGE" } := by
  rw [calcular_prediccion_simple, if_neg h]

lemma simple_metodo {ventas : List Venta} {hoy : ℤ} {r : PrediccionSimple}
    (h : calcular_prediccion_simple ventas hoy = some r) : r.metodo = "WEIGHTED_AVERAGE" := by
  rw [calcular_prediccion_simple] at h
  split_ifs at h
  rw [← Option.some.inj h]

lemma simple_confianza {ventas : List Venta} {hoy : ℤ} {r : PrediccionSimple}
    (h : calcular_prediccion_simple ventas hoy = some r) :
    r.confianza = confianzaOf ventas.length := by
  rw [calcular_prediccion_simple] at h
  split_ifs at h
  rw [← Option.some.inj h]
  show confianzaOf (ordenarDesc ventas).length = confianzaOf ventas.length
  rw [ordenarDesc_length]

/-! ### C8: confidence -/

/-- C8 counterexample: with a single record the returned confidence is
`round(1/30, 2) = 0.03`, not `min(1/30, 1) = 1/30` — the code rounds the
confidence to two decimals before returning it. -/
theorem confianza_not_exact_min_cx :
    (calcular_prediccion_simple [⟨1, 0⟩] 0).map (·.confianza) = some (3/100) ∧
    (3 : ℚ)/100 ≠ 1/30 ∧ min ((1 : ℚ)/30) 1 = 1/30 := by
  refine ⟨?_, by norm_num, by norm_num⟩
  rw [simple_eq_some 0 (by simp)]
  show some (confianzaOf (ordenarDesc [⟨1, 0⟩]).length) = some (3/100)
  norm_num [ordenarDesc, insertarDesc, confianzaOf, round2, roundHalfEven, min_def]

lemma roundHalfEven_mono {x y : ℚ} (h : x ≤ y) : roundHalfEven x ≤ roundHalfEven y := by
  have hf : ⌊x⌋ ≤ ⌊y⌋ := Int.floor_le_floor h
  rcases lt_or_eq_of_le hf with hlt | heq
  · have h1 : roundHalfEven x ≤ ⌊x⌋ + 1 := by
      unfold roundHalfEven
      split_ifs <;> omega
    have h2 : ⌊y⌋ ≤ roundHalfEven y := by
      unfold roundHalfEven
      split_ifs <;> omega
    omega
  · unfold roundHalfEven
    rw [← heq]
    have hxy : x - ⌊x⌋ ≤ y - ⌊x⌋ := by linarith
    split_ifs <;> first | omega | linarith

lemma round2_mono {x y : ℚ} (h : x ≤ y) : round2 x ≤ round2 y := by
  unfold round2
  have hm : roundHalfEven (100 * x) ≤ roundHalfEven (100 * y) :=
    roundHalfEven_mono (by linarith)
  have hc : ((roundHalfEven (100 * x) : ℚ)) ≤ (roundHalfEven (100 * y) : ℚ) := by
    exact_mod_cast hm
  linarith

/-- C8 amended: the returned confidence is `min(record_count/30, 1.0)`
rounded to two decimals; it is non-decreasing in the record count and
exactly 1.0 from 30 records onward, every weighted-average result carries
`confianzaOf record_count`, and the model path assigns the fixed 0.92. -/
theorem confianza_monotone_and_formula :
    (∀ n m : ℕ, n ≤ m → confianzaOf n ≤ confianzaOf m) ∧
    (∀ n : ℕ, 30 ≤ n → confianzaOf n = 1) ∧
    (∀ (ventas : List Venta) (hoy : ℤ) (r : PrediccionSimple),
      calcular_prediccion_simple ventas hoy = some r → r.confianza = confianzaOf ventas.length) ∧
    (∀ (ventas : List Venta) (forecast : List ℚ) (stock hoy : ℤ) (p : Prediccion),
      calcular_prediccion_producto ventas (some forecast) stock hoy = some p →
      30 ≤ ventas.length → p.confianza = 92/100) := by
  refine ⟨?_, ?_, ?_, ?_⟩
  · intro n m hnm
    apply round2_mono
    apply min_le_min _ le_rfl
    apply div_le_div_of_nonneg_right ?_ (by norm_num)
    · exact_mod_cast hnm
  · intro n hn
    unfold confianzaOf
    rw [min_eq_right]
    · norm_num [round2, roundHalfEven]
    · rw [le_div_iff₀ (by norm_num)]
      norm_num
      exact_mod_cast hn
  · intro ventas hoy r h
    exact simple_confianza h
  · intro ventas forecast stock hoy p h h30
    rw [calcular_prediccion_producto.eq_def, if_neg (by omega), if_pos h30] at h
    simp only [Option.some.injEq] at h
    rw [← h]

/-- Witness for C8 amended: monotone step 3 ≤ 10, exact 1.0 at 30 records,
the single-record weighted result, and a 30-record model result. -/
theorem confianza_monotone_and_formula_witness :
    (confianzaOf 3 ≤ confianzaOf 10 ∧ confianzaOf 30 = 1) ∧
    (PrediccionSimple.mk 1 7 (3/100) "WEIGHTED_AVERAGE").confianza = confianzaOf 1 ∧
    (Prediccion.mk 5 35 "HOLT_WINTERS" (92/100) 20).confianza = 92/100 :=
  ⟨⟨confianza_monotone_and_formula.1 3 10 (by norm_num),
    confianza_monotone_and_formula.2.1 30 (by norm_num)⟩,
    confianza_monotone_and_formula.2.2.1 [⟨1, 0⟩] 0 _ (by
      rw [simple_eq_some 0 (by simp)]
      norm_num [ordenarDesc, insertarDesc, demandaMananaQ, demandaSemanaQ, demandaBase,
        sumaPonderada, sumaPesos, pesosHasta, factorDia, ventasPorDia, diaSemana, confianzaOf,
        round2, roundHalfEven, min_def, List.range_succ, List.range']),
    confianza_monotone_and_formula.2.2.2 ((List.range 30).map fun i : ℕ => ⟨1, (i : ℤ)⟩)
      [5, 5, 5, 5, 5, 5, 5] 20 0 _ (by
        rw [calcular_prediccion_producto.eq_def, if_neg (by simp), if_pos (by simp)]
        norm_num [roundHalfEven])
      (by simp)⟩

/-! ### C3: the method label -/

/-- C3 counterexample: with 35 days of constant-5 history and a stored
seasonal model the produced method label is `HOLT_WINTERS` — the code
never emits a `SEASONAL` label. -/
theorem metodo_label_not_seasonal_cx :
    ((calcular_prediccion_producto ((List.range 35).map fun i : ℕ => ⟨5, (i : ℤ)⟩)
        (some [5, 5, 5, 5, 5, 5, 5]) 20 0).map (·.metodo) = some "HOLT_WINTERS") ∧
    ("HOLT_WINTERS" : String) ≠ "SEASONAL" := by
  constructor
  · rw [calcular_prediccion_producto.eq_def, if_neg (by simp), if_pos (by simp)]
    rfl
  · simp

/-- C3 amended: the persisted `metodo` truthfully names the algorithm that
produced the numbers — `HOLT_WINTERS` exactly when a stored seasonal
model's forecast produced them (requires ≥ 30 records and a model), and
`WEIGHTED_AVERAGE` exactly when the weighted-average formula did. -/
theorem metodo_truthful (ventas : List Venta) (modelo : Option (List ℚ)) (stock hoy : ℤ)
    (p : Prediccion) (h : calcular_prediccion_producto ventas modelo stock hoy = some p) :
    (p.metodo = "HOLT_WINTERS" ∧ 30 ≤ ventas.length ∧
      ∃ forecast, modelo = some forecast ∧
        p.demanda_manana = max 0 (roundHalfEven (forecast.headD 0)) ∧
        p.demanda_proxima_semana = max 0 (roundHalfEven forecast.sum) ∧
        p.confianza = 92/100) ∨
    (p.metodo = "WEIGHTED_AVERAGE" ∧
      ∃ r, calcular_prediccion_simple ventas hoy = some r ∧
        p.demanda_manana = r.demanda_manana ∧
        p.demanda_proxima_semana = r.demanda_proxima_semana ∧
        p.confianza = r.confianza) := by
  have hne : ventas ≠ [] := by
    intro hnil
    rw [calcular_prediccion_producto.eq_def, hnil] at h
    simp at h
  rw [calcular_prediccion_producto.eq_def] at h
  split_ifs at h with h5 h30
  · cases modelo with
    | none =>
      simp only [simple_eq_some hoy hne, Option.some.injEq] at h
      right
      rw [← h]
      exact ⟨rfl, _, simple_eq_some hoy hne, rfl, rfl, rfl⟩
    | some forecast =>
      simp only [Option.some.injEq] at h
      left
      rw [← h]
      exact ⟨rfl, h30, forecast, rfl, rfl, rfl, rfl⟩
  · simp only [simple_eq_some hoy hne, Option.some.injEq] at h
    right
    rw [← h]
    exact ⟨rfl, _, simple_eq_some hoy hne, rfl, rfl, rfl⟩

/-- Witness for C3 amended at a 35-record history with a stored model. -/
theorem metodo_truthful_witness :
    calcular_prediccion_producto ((List.range 35).map fun i : ℕ => ⟨5, (i : ℤ)⟩)
        (some [5, 5, 5, 5, 5, 5, 5]) 20 0
      = some (Prediccion.mk 5 35 "HOLT_WINTERS" (92/100) 20) ∧
    (((Prediccion.mk 5 35 "HOLT_WINTERS" (92/100) 20).metodo = "HOLT_WINTERS" ∧
      30 ≤ ((List.range 35).map fun i : ℕ => (⟨5, (i : ℤ)⟩ : Venta)).length ∧
      ∃ forecast, (some [5, 5, 5, 5, 5, 5, 5] : Option (List ℚ)) = some forecast ∧
        (Prediccion.mk 5 35 "HOLT_WINTERS" (92/100) 20).demanda_manana
          = max 0 (roundHalfEven (forecast.headD 0)) ∧
        (Prediccion.mk 5 35 "HOLT_WINTERS" (92/100) 20).demanda_proxima_semana
          = max 0 (roundHalfEven forecast.sum) ∧
        (Prediccion.mk 5 35 "HOLT_WINTERS" (92/100) 20).confianza = 92/100) ∨
    ((Prediccion.mk 5 35 "HOLT_WINTERS" (92/100) 20).metodo = "WEIGHTED_AVERAGE" ∧
      ∃ r, calcular_prediccion_simple ((List.range 35).map fun i : ℕ => ⟨5, (i : ℤ)⟩) 0 = some r ∧
        (Prediccion.mk 5 35 "HOLT_WINTERS" (92/100) 20).demanda_manana = r.demanda_manana ∧
        (Prediccion.mk 5 35 "HOLT_WINTERS" (92/100) 20).demanda_proxima_semana
          = r.demanda_proxima_semana ∧
        (Prediccion.mk 5 35 "HOLT_WINTERS" (92/100) 20).confianza = r.confianza)) := by
  have hcalc : calcular_prediccion_producto ((List.range 35).map fun i : ℕ => ⟨5, (i : ℤ)⟩)
      (some [5, 5, 5, 5, 5, 5, 5]) 20 0
      = some (Prediccion.mk 5 35 "HOLT_WINTERS" (92/100) 20) := by
    rw [calcular_prediccion_producto.eq_def, if_neg (by simp), if_pos (by simp)]
    norm_num [roundHalfEven]
  exact ⟨hcalc, metodo_truthful _ _ _ _ _ hcalc⟩

/-! ### C5: fallback threshold and the skip policy -/

/-- C5 counterexample: a history of 3 records meets the fallback's stated
minimum (≥ 1 record: the weighted-average formula succeeds on it), yet
`calcular_prediccion_producto` skips the product — its gate requires at
least 5 records. -/
theorem producto_skipped_despite_fallback_minimum_cx :
    calcular_prediccion_producto [⟨1, 0⟩, ⟨1, 1⟩, ⟨1, 2⟩] none 0 0 = none ∧
    calcular_prediccion_simple [⟨1, 0⟩, ⟨1, 1⟩, ⟨1, 2⟩] 0 ≠ none := by
  constructor
  · rw [calcular_prediccion_producto.eq_def, if_pos (by norm_num)]
  · rw [simple_eq_some 0 (by simp)]
    simp

/-- C5 amended: when the seasonal model is unavailable (fewer than 30
records, or no stored model) the caller falls back to the
weighted-average formula, which itself requires only a non-empty history;
but the product is skipped exactly when it has fewer than 5 records. -/
theorem fallback_and_skip_policy (ventas : List Venta) (modelo : Option (List ℚ))
    (stock hoy : ℤ) :
    (calcular_prediccion_producto ventas modelo stock hoy = none ↔ ventas.length < 5) ∧
    (5 ≤ ventas.length → (ventas.length < 30 ∨ modelo = none) →
      (calcular_prediccion_producto ventas modelo stock hoy).map (·.metodo)
        = some "WEIGHTED_AVERAGE") ∧
    (calcular_prediccion_simple ventas hoy = none ↔ ventas = []) := by
  have hsimple : calcular_prediccion_simple ventas hoy = none ↔ ventas = [] := by
    constructor
    · intro h
      by_contra hne
      rw [simple_eq_some hoy hne] at h
      exact absurd h (by simp)
    · intro h
      rw [calcular_prediccion_simple, if_pos h]
  refine ⟨?_, ?_, hsimple⟩
  · rw [calcular_prediccion_producto.eq_def]
    split_ifs with h5 h30
    · simp [h5]
    · have hne : ventas ≠ [] := by
        intro hh
        rw [hh] at h5
        simp at h5
      cases modelo with
      | none =>
        rw [simple_eq_some hoy hne]
        simp [h5]
      | some forecast => simp [h5]
    · have hne : ventas ≠ [] := by
        intro hh
        rw [hh] at h5
        simp at h5
      rw [simple_eq_some hoy hne]
      simp [h5]
  · intro h5 hd
    have hne : ventas ≠ [] := by
      intro hh
      rw [hh] at h5
      simp at h5
    rw [calcular_prediccion_producto.eq_def, if_neg (by omega)]
    rcases hd with h30 | hmn
    · rw [if_neg (by omega), simple_eq_some hoy hne]
      rfl
    · rw [hmn]
      split_ifs with h30
      · rw [simple_eq_some hoy hne]
        rfl
      · rw [simple_eq_some hoy hne]
        rfl

/-- Witness for C5 amended at a 5-record history with no stored model. -/
theorem fallback_and_skip_policy_witness :
    (calcular_prediccion_producto [⟨1, 0⟩, ⟨1, 1⟩, ⟨1, 2⟩, ⟨1, 3⟩, ⟨1, 4⟩] none 0 0).map
      (·.metodo) = some "WEIGHTED_AVERAGE" :=
  (fallback_and_skip_policy [⟨1, 0⟩, ⟨1, 1⟩, ⟨1, 2⟩, ⟨1, 3⟩, ⟨1, 4⟩] none 0 0).2.1
    (by norm_num) (Or.inl (by norm_num))

/-! ### C6: cache keys -/

/-- C6 counterexample: the batch writer `guardar_prediccion` stores under
the product code alone — no calendar-date component — so its key differs
from the dated key the cache read uses, and a dated read after a batch
write still misses. -/
theorem batch_write_key_lacks_date_cx :
    clave_guardar_prediccion "P1" ≠ clave_verificar_cache "P1" "2025-01-01" ∧
    verificar_cache
        (guardar_prediccion (fun _ => none) "T1" "P1" ⟨"P1", 4, 9, "ACTIVO"⟩)
        "T1" "P1" "2025-01-01" = none := by
  constructor
  · simp [clave_guardar_prediccion, clave_verificar_cache]
  · unfold verificar_cache guardar_prediccion get_item put_item clave_guardar_prediccion
      clave_verificar_cache
    simp

/-- C6 amended: the on-demand read and write build the same dated key
(product#date), a read after a write on that key returns exactly the
written payload (filtered on estado), and writes are last-write-wins on a
single key; the batch writer instead keys by the product code alone, with
no date. -/
theorem cache_key_discipline :
    (∀ p f, clave_verificar_cache p f = clave_guardar_cache p f) ∧
    (∀ (tabla : Tabla) (t p f : String) (v : CachePayload),
      verificar_cache (guardar_cache tabla t p f v) t p f
        = if v.estado = "ACTIVO" then
            some ⟨v.codigo_producto, v.demanda_manana, v.demanda_proxima_semana⟩
          else none) ∧
    (∀ (tabla : Tabla) (t k : String) (v₁ v₂ : CachePayload),
      put_item (put_item tabla t k v₁) t k v₂ = put_item tabla t k v₂) ∧
    (∀ p, clave_guardar_prediccion p = p) := by
  refine ⟨fun p f => rfl, ?_, ?_, fun p => rfl⟩
  · intro tabla t p f v
    unfold verificar_cache guardar_cache get_item put_item clave_verificar_cache
      clave_guardar_cache
    rw [if_pos rfl]
  · intro tabla t k v₁ v₂
    funext x
    unfold put_item
    by_cases hx : x = (t, k)
    · rw [if_pos hx, if_pos hx]
    · rw [if_neg hx, if_neg hx, if_neg hx]

/-! ### C9: batch isolation -/

lemma procesarProducto_intentados (g : String → Except String (Option Prediccion))
    (st : ResultadoTienda) (p : String) :
    (procesarProducto g st p).intentados = st.intentados ++ [p] := by
  unfold procesarProducto
  rcases g p with e | o
  · rfl
  · rcases o with _ | pred
    · rfl
    · rfl

lemma procesarProducto_guardadas (g : String → Except String (Option Prediccion))
    (st : ResultadoTienda) (p : String) :
    (procesarProducto g st p).guardadas = st.guardadas ++ (exitoDe g p).toList := by
  unfold procesarProducto exitoDe
  rcases g p with e | o
  · simp
  · rcases o with _ | pred
    · simp
    · simp

lemma procesarProducto_omitidos (g : String → Except String (Option Prediccion))
    (st : ResultadoTienda) (p : String) :
    (procesarProducto g st p).estadisticas.productos_omitidos
      = st.estadisticas.productos_omitidos + (if esOmitido (g p) then 1 else 0) := by
  unfold procesarProducto esOmitido
  rcases g p with e | o
  · simp
  · rcases o with _ | pred
    · simp
    · have hpo : ∀ (c : Prop) (h : Decidable c) (a b : Estadisticas),
          (if c then a else b).productos_omitidos
            = if c then a.productos_omitidos else b.productos_omitidos := by
        intro c h a b
        split_ifs <;> rfl
      simp [hpo]

lemma foldl_intentados (g : String → Except String (Option Prediccion)) :
    ∀ (l : List String) (st : ResultadoTienda),
      (l.foldl (procesarProducto g) st).intentados = st.intentados ++ l := by
  intro l
  induction l with
  | nil => intro st; simp
  | cons p t ih =>
    intro st
    rw [List.foldl_cons, ih, procesarProducto_intentados]
    simp

lemma foldl_guardadas (g : String → Except String (Option Prediccion)) :
    ∀ (l : List String) (st : ResultadoTienda),
      (l.foldl (procesarProducto g) st).guardadas = st.guardadas ++ l.filterMap (exitoDe g) := by
  intro l
  induction l with
  | nil => intro st; simp
  | cons p t ih =>
    intro st
    rw [List.foldl_cons, ih, procesarProducto_guardadas, List.filterMap_cons]
    rcases hgp : exitoDe g p with _ | e <;> simp [hgp]

lemma foldl_omitidos (g : String → Except String (Option Prediccion)) :
    ∀ (l : List String) (st : ResultadoTienda),
      (l.foldl (procesarProducto g) st).estadisticas.productos_omitidos
        = st.estadisticas.productos_omitidos + (l.filter fun q => esOmitido (g q)).length := by
  intro l
  induction l with
  | nil => intro st; simp
  | cons p t ih =>
    intro st
    rw [List.foldl_cons, ih, procesarProducto_omitidos, List.filter_cons]
    rcases h : esOmitido (g p) <;> (simp [h]; try omega)

lemma procesarTienda_intentados (g : String → Except String (Option Prediccion))
    (l : List String) : (procesarTienda g l).intentados = l := by
  unfold procesarTienda
  rw [foldl_intentados]
  rfl

lemma exitoDe_fst {g : String → Except String (Option Prediccion)} {q : String}
    {e : String × Prediccion} (h : exitoDe g q = some e) : e.1 = q := by
  unfold exitoDe at h
  split at h
  · rw [← Option.some.inj h]
  · exact absurd h (by simp)

lemma filterMap_exito_agree {g g₂ : String → Except String (Option Prediccion)} {p : String}
    (hagree : ∀ q, q ≠ p → g q = g₂ q) :
    ∀ l : List String,
      ((l.filterMap (exitoDe g)).filter fun e => e.1 ≠ p)
        = ((l.filterMap (exitoDe g₂)).filter fun e => e.1 ≠ p) := by
  intro l
  induction l with
  | nil => rfl
  | cons q t ih =>
    rw [List.filterMap_cons, List.filterMap_cons]
    by_cases hq : q = p
    · subst hq
      rcases h1 : exitoDe g q with _ | e
      · rcases h2 : exitoDe g₂ q with _ | f
        · exact ih
        · rw [List.filter_cons, if_neg (by simp [exitoDe_fst h2])]
          exact ih
      · rcases h2 : exitoDe g₂ q with _ | f
        · rw [List.filter_cons, if_neg (by simp [exitoDe_fst h1])]
          exact ih
        · rw [List.filter_cons, if_neg (by simp [exitoDe_fst h1]), List.filter_cons,
            if_neg (by simp [exitoDe_fst h2])]
          exact ih
    · have hgq : exitoDe g q = exitoDe g₂ q := by
        unfold exitoDe
        rw [hagree q hq]
      rw [hgq]
      rcases h2 : exitoDe g₂ q with _ | f
      · exact ih
      · rw [List.filter_cons, List.filter_cons]
        split_ifs with hf
        · rw [ih]
        · exact ih

/-- C9: in one batch run, every product of every store in the enumeration
is attempted regardless of per-product failures; a product whose oracle
raises (or yields no prediction) is counted as omitted; the saved
predictions are exactly the per-product successes; and changing the
outcome of a single product `p` (e.g. injecting a failure) leaves the
saved predictions of every other product unchanged. -/
theorem batch_isolation (g g₂ : String → String → Except String (Option Prediccion))
    (t p : String) (l : List String) (lote : List (String × List String))
    (hagree : ∀ q, q ≠ p → g t q = g₂ t q) :
    (procesarTienda (g t) l).intentados = l ∧
    (procesarTienda (g₂ t) l).intentados = l ∧
    (procesarTienda (g t) l).guardadas = l.filterMap (exitoDe (g t)) ∧
    (procesarTienda (g t) l).estadisticas.productos_omitidos
      = (l.filter fun q => esOmitido (g t q)).length ∧
    ((procesarTienda (g t) l).guardadas.filter fun e => e.1 ≠ p)
      = ((procesarTienda (g₂ t) l).guardadas.filter fun e => e.1 ≠ p) ∧
    (procesarLote g lote).map (fun r => (r.1, r.2.intentados)) = lote := by
  have hg : (procesarTienda (g t) l).guardadas = l.filterMap (exitoDe (g t)) := by
    unfold procesarTienda
    rw [foldl_guardadas]
    rfl
  have hg₂ : (procesarTienda (g₂ t) l).guardadas = l.filterMap (exitoDe (g₂ t)) := by
    unfold procesarTienda
    rw [foldl_guardadas]
    rfl
  refine ⟨procesarTienda_intentados _ _, procesarTienda_intentados _ _, hg, ?_, ?_, ?_⟩
  · unfold procesarTienda
    rw [foldl_omitidos]
    simp
  · rw [hg, hg₂]
    exact filterMap_exito_agree hagree l
  · induction lote with
    | nil => rfl
    | cons tp rest ih =>
      unfold procesarLote at ih ⊢
      rw [List.map_cons, List.map_cons, ih]
      rw [procesarTienda_intentados]

/-- Witness for C9: products ["A", "B", "C"], a failure injected at "B",
and a two-store batch. -/
theorem batch_isolation_witness :
    (procesarTienda (oraculoFalla "T1") ["A", "B", "C"]).intentados = ["A", "B", "C"] ∧
    (procesarTienda (oraculoBien "T1") ["A", "B", "C"]).intentados = ["A", "B", "C"] ∧
    (procesarTienda (oraculoFalla "T1") ["A", "B", "C"]).guardadas
      = (["A", "B", "C"].filterMap (exitoDe (oraculoFalla "T1"))) ∧
    (procesarTienda (oraculoFalla "T1") ["A", "B", "C"]).estadisticas.productos_omitidos
      = (["A", "B", "C"].filter fun q => esOmitido (oraculoFalla "T1" q)).length ∧
    ((procesarTienda (oraculoFalla "T1") ["A", "B", "C"]).guardadas.filter fun e => e.1 ≠ "B")
      = ((procesarTienda (oraculoBien "T1") ["A", "B", "C"]).guardadas.filter fun e => e.1 ≠ "B") ∧
    (procesarLote oraculoFalla [("T1", ["A", "B"]), ("T2", ["C"])]).map
        (fun r => (r.1, r.2.intentados))
      = [("T1", ["A", "B"]), ("T2", ["C"])] :=
  batch_isolation oraculoFalla oraculoBien "T1" "B" ["A", "B", "C"]
    [("T1", ["A", "B"]), ("T2", ["C"])]
    (by
      intro q hq
      unfold oraculoFalla oraculoBien
      rw [if_neg hq])

/-! ### C4: the time-series builder -/

lemma foldl_min_le_init (l : List RegistroVenta) :
    ∀ a : ℤ, l.foldl (fun x r => min x r.fecha) a ≤ a := by
  induction l with
  | nil => intro a; exact le_refl a
  | cons r t ih => intro a; exact le_trans (ih (min a r.fecha)) (min_le_left _ _)

lemma init_le_foldl_max (l : List RegistroVenta) :
    ∀ a : ℤ, a ≤ l.foldl (fun x r => max x r.fecha) a := by
  induction l with
  | nil => intro a; exact le_refl a
  | cons r t ih => intro a; exact le_trans (le_max_left _ _) (ih (max a r.fecha))

lemma foldl_min_le_mem (l : List RegistroVenta) :
    ∀ (a : ℤ) (x : RegistroVenta), x ∈ l → l.foldl (fun x r => min x r.fecha) a ≤ x.fecha := by
  induction l with
  | nil => intro a x hx; exact absurd hx (List.not_mem_nil x)
  | cons r t ih =>
    intro a x hx
    rcases List.mem_cons.mp hx with rfl | hmem
    · exact le_trans (foldl_min_le_init t _) (min_le_right a x.fecha)
    · exact ih _ x hmem

lemma mem_le_foldl_max (l : List RegistroVenta) :
    ∀ (a : ℤ) (x : RegistroVenta), x ∈ l → x.fecha ≤ l.foldl (fun x r => max x r.fecha) a := by
  induction l with
  | nil => intro a x hx; exact absurd hx (List.not_mem_nil x)
  | cons r t ih =>
    intro a x hx
    rcases List.mem_cons.mp hx with rfl | hmem
    · exact le_trans (le_max_right a x.fecha) (init_le_foldl_max t _)
    · exact ih _ x hmem

lemma list_map_add_sum {α : Type} (l : List α) (f g : α → ℚ) :
    (l.map fun x => f x + g x).sum = (l.map f).sum + (l.map g).sum := by
  induction l with
  | nil => simp
  | cons a t ih =>
    simp only [List.map_cons, List.sum_cons, ih]
    ring

lemma range_map_ite_sum (N : ℕ) (j : ℕ) (hj : j < N) (c : ℚ) :
    ((List.range N).map fun i => if j = i then c else 0).sum = c := by
  rw [list_range_map_sum, Finset.sum_ite_eq (Finset.range N) j fun _ => c]
  simp [hj]

/-- Summing the per-day groups over the full date range recovers the total
input quantity. -/
lemma sum_group_by_date (l : List RegistroVenta) (d1 : ℤ) (N : ℕ)
    (hmem : ∀ r ∈ l, d1 ≤ r.fecha ∧ r.fecha < d1 + N) :
    ((List.range N).map fun i : ℕ =>
        ((l.filter fun r => r.fecha = d1 + (i : ℤ)).map (·.cantidad_vendida)).sum).sum
      = (l.map (·.cantidad_vendida)).sum := by
  induction l with
  | nil => simp
  | cons r t ih =>
    have hr := hmem r (List.mem_cons_self r t)
    have ht : ∀ x ∈ t, d1 ≤ x.fecha ∧ x.fecha < d1 + N :=
      fun x hx => hmem x (List.mem_cons_of_mem r hx)
    have hsplit : ∀ i : ℕ,
        (((r :: t).filter fun x => x.fecha = d1 + (i : ℤ)).map (·.cantidad_vendida)).sum
          = (if (r.fecha - d1).toNat = i then r.cantidad_vendida else 0)
            + ((t.filter fun x => x.fecha = d1 + (i : ℤ)).map (·.cantidad_vendida)).sum := by
      intro i
      rw [List.filter_cons]
      by_cases hc : r.fecha = d1 + (i : ℤ)
      · rw [if_pos (by simpa using hc), if_pos (by omega)]
        simp
      · rw [if_neg (by simpa using hc), if_neg (by omega)]
        simp
    calc ((List.range N).map fun i : ℕ =>
            (((r :: t).filter fun x => x.fecha = d1 + (i : ℤ)).map (·.cantidad_vendida)).sum).sum
        = ((List.range N).map fun i : ℕ =>
            (if (r.fecha - d1).toNat = i then r.cantidad_vendida else 0)
              + ((t.filter fun x => x.fecha = d1 + (i : ℤ)).map (·.cantidad_vendida)).sum).sum := by
          congr 1
          exact List.map_congr_left fun i _ => hsplit i
      _ = ((List.range N).map fun i : ℕ =>
              if (r.fecha - d1).toNat = i then r.cantidad_vendida else 0).sum
            + ((List.range N).map fun i : ℕ =>
              ((t.filter fun x => x.fecha = d1 + (i : ℤ)).map (·.cantidad_vendida)).sum).sum :=
          list_map_add_sum _ _ _
      _ = r.cantidad_vendida + (t.map (·.cantidad_vendida)).sum := by
          rw [range_map_ite_sum N (r.fecha - d1).toNat (by omega) r.cantidad_vendida, ih ht]
      _ = ((r :: t).map (·.cantidad_vendida)).sum := by simp

/-- C4: on non-empty input spanning dates d1..d2, the builder returns a
series with exactly (d2-d1)+1 entries, dates pairwise distinct and
covering exactly the range, same-day quantities summed (hence missing
days 0), and total quantity preserved; on empty input it returns `none`. -/
theorem preparar_dataset_series_spec (v : RegistroVenta) (vs : List RegistroVenta) (d1 d2 : ℤ)
    (h1 : d1 = vs.foldl (fun a r => min a r.fecha) v.fecha)
    (h2 : d2 = vs.foldl (fun a r => max a r.fecha) v.fecha) :
    preparar_dataset_holt_winters [] = none ∧
    ∃ s, preparar_dataset_holt_winters (v :: vs) = some s ∧
      s.length = (d2 - d1).toNat + 1 ∧
      (s.map Prod.fst).Nodup ∧
      (∀ d : ℤ, d ∈ s.map Prod.fst ↔ d1 ≤ d ∧ d ≤ d2) ∧
      (s.map Prod.snd).sum = ((v :: vs).map (·.cantidad_vendida)).sum ∧
      (∀ e ∈ s, e.2
        = (((v :: vs).filter fun r => r.fecha = e.1).map (·.cantidad_vendida)).sum) := by
  have hd1 : d1 ≤ v.fecha := h1 ▸ foldl_min_le_init vs v.fecha
  have hd2 : v.fecha ≤ d2 := h2 ▸ init_le_foldl_max vs v.fecha
  have hd12 : d1 ≤ d2 := le_trans hd1 hd2
  have hmem : ∀ r ∈ v :: vs, d1 ≤ r.fecha ∧ r.fecha ≤ d2 := by
    intro r hr
    rcases List.mem_cons.mp hr with rfl | hmem
    · exact ⟨hd1, hd2⟩
    · exact ⟨h1 ▸ foldl_min_le_mem vs v.fecha r hmem, h2 ▸ mem_le_foldl_max vs v.fecha r hmem⟩
  have hprep : preparar_dataset_holt_winters (v :: vs)
      = some ((List.range (d2 - d1 + 1).toNat).map fun i : ℕ =>
          ((d1 + (i : ℤ) : ℤ),
            (((v :: vs).filter fun r => r.fecha = d1 + (i : ℤ)).map (·.cantidad_vendida)).sum)) := by
    subst h1 h2
    rfl
  refine ⟨rfl, _, hprep, ?_, ?_, ?_, ?_, ?_⟩
  · simp only [List.length_map, List.length_range]
    omega
  · rw [List.map_map]
    have hcomp : (Prod.fst ∘ fun i : ℕ =>
        ((d1 + (i : ℤ) : ℤ),
          (((v :: vs).filter fun r => r.fecha = d1 + (i : ℤ)).map (·.cantidad_vendida)).sum))
        = fun i : ℕ => d1 + (i : ℤ) := rfl
    rw [hcomp]
    refine List.Nodup.map ?_ (List.nodup_range _)
    intro a b hab
    have hab2 : d1 + (a : ℤ) = d1 + (b : ℤ) := hab
    omega
  · intro d
    rw [List.map_map]
    simp only [List.mem_map, List.mem_range, Function.comp_apply]
    constructor
    · rintro ⟨i, hi, rfl⟩
      constructor
      · omega
      · show d1 + (i : ℤ) ≤ d2
        omega
    · rintro ⟨ha, hb⟩
      exact ⟨(d - d1).toNat, by omega, by show d1 + (((d - d1).toNat : ℕ) : ℤ) = d; omega⟩
  · rw [List.map_map]
    have hcomp : (Prod.snd ∘ fun i : ℕ =>
        ((d1 + (i : ℤ) : ℤ),
          (((v :: vs).filter fun r => r.fecha = d1 + (i : ℤ)).map (·.cantidad_vendida)).sum))
        = fun i : ℕ =>
          (((v :: vs).filter fun r => r.fecha = d1 + (i : ℤ)).map (·.cantidad_vendida)).sum := rfl
    rw [hcomp]
    apply sum_group_by_date
    intro r hr
    have := hmem r hr
    omega
  · intro e he
    rcases List.mem_map.mp he with ⟨i, hi, rfl⟩
    rfl

/-- Witness for C4 at records [(day 0, qty 2), (day 2, qty 3)]. -/
theorem preparar_dataset_series_spec_witness :
    preparar_dataset_holt_winters [] = none ∧
    ∃ s, preparar_dataset_holt_winters [⟨0, 2⟩, ⟨2, 3⟩] = some s ∧
      s.length = ((2 : ℤ) - 0).toNat + 1 ∧
      (s.map Prod.fst).Nodup ∧
      (∀ d : ℤ, d ∈ s.map Prod.fst ↔ (0 : ℤ) ≤ d ∧ d ≤ 2) ∧
      (s.map Prod.snd).sum = (([⟨0, 2⟩, ⟨2, 3⟩] : List RegistroVenta).map (·.cantidad_vendida)).sum ∧
      (∀ e ∈ s, e.2
        = ((([⟨0, 2⟩, ⟨2, 3⟩] : List RegistroVenta).filter
            fun r => r.fecha = e.1).map (·.cantidad_vendida)).sum) :=
  preparar_dataset_series_spec ⟨0, 2⟩ [⟨2, 3⟩] 0 2
    (by norm_num [List.foldl]) (by norm_num [List.foldl])

end SAAI
